import Mathlib

/-!
Shallow embedding of the carpark ingestion pipeline of `src/server.js`.

Conventions for embedding JavaScript values:
* A JS number that may be `NaN` (the result of `parseFloat` / `parseInt` on
  arbitrary text) is `Option Rat` resp. `Option Int`, with `none` playing the
  role of `NaN`.  All comparisons against `NaN` are false, and `NaN` is falsy,
  which the helper functions below reproduce.
* JS truthiness on strings: the empty string is falsy.
* `x || d` on numbers: `NaN` and `0` are falsy, so both fall back to `d`.
* The third-party HTML selector layer (cheerio) is the embedding boundary:
  a fetched document is modelled as the lists of raw per-element field values
  the selectors would yield.  `Except Unit` around a raw record models the
  possibility that extracting that record throws.
* The `localeCompare(..., 'zh-Hant')` comparator used for the final sort is
  an opaque third-party total comparison; it is a parameter `le` of the
  pipeline.
-/

/-- Dropping leading whitespace from a character list. -/
def dropLeadingWs : List Char → List Char
  | [] => []
  | c :: cs => if c.isWhitespace then dropLeadingWs cs else c :: cs

/-- JS `String.prototype.trim`: strip leading and trailing whitespace.
(Defined by structural recursion on the character list so that concrete
instances evaluate; the behaviour is that of the built-in trim.) -/
def jsTrim (s : String) : String :=
  String.mk (dropLeadingWs ((dropLeadingWs s.data.reverse).reverse))

/-- JS `x || d` for an `Int`-valued `parseInt` result (`none` = `NaN`).
`NaN` and `0` are falsy, so both yield the default. -/
def jsOrInt (o : Option Int) (d : Int) : Int :=
  match o with
  | none => d
  | some n => if n = 0 then d else n

/-- JS `s || d` for strings: the empty string is falsy. -/
def jsOrStr (s d : String) : String :=
  if s = "" then d else s

/-- JS truthiness of a string. -/
def truthyStr (s : String) : Bool :=
  decide (s ≠ "")

/-- JS truthiness of a possibly-`NaN` number: `NaN` and `0` are falsy. -/
def truthyNum (o : Option Rat) : Bool :=
  match o with
  | none => false
  | some q => decide (q ≠ 0)

/-- `!isNaN(x)` on a possibly-`NaN` number. -/
def jsNotNaN (o : Option Rat) : Bool :=
  match o with
  | none => false
  | some _ => true

/-- JS `x >= b` where `x` may be `NaN` (comparisons with `NaN` are false). -/
def jsGe (o : Option Rat) (b : Rat) : Bool :=
  match o with
  | none => false
  | some x => decide (b ≤ x)

/-- JS `x <= b` where `x` may be `NaN`. -/
def jsLe (o : Option Rat) (b : Rat) : Bool :=
  match o with
  | none => false
  | some x => decide (x ≤ b)

/-- The `streetParking` sub-record of a facility (`server.js` lines 146-158). -/
structure StreetParking where
  total : Int
  available : Int
  fee : String
deriving DecidableEq

/-- A normalized parking facility as built by `scrapeCarparks`
(`server.js` lines 168-184 and 205-221).  `latitude`/`longitude` are
`parseFloat` results (`none` = `NaN`).  Street-zone records carry no
`openingHours`/`contactNumber`/`facilities` fields in the source (they are
`undefined`, i.e. falsy); this is modelled by `""`/`[]`.  The extraction-time
ISO timestamp `lastUpdated` of garage records is wall-clock metadata used by
no pipeline step and is not modelled. -/
structure Carpark where
  name : String
  address : String
  capacity : Int
  latitude : Option Rat
  longitude : Option Rat
  chargingStations : Int
  chargingProvider : String
  chargingType : String
  isStreetParking : Bool
  streetParking : StreetParking
  openingHours : String
  contactNumber : String
  facilities : List String
  hasCharging : Bool
  displayInfo : String
deriving DecidableEq

/-- `validateCarpark` (`server.js` lines 63-75), a direct transcription of the
JS conjunction including its truthiness tests on `name`, `latitude` and
`longitude`. -/
def validateCarpark (c : Carpark) : Bool :=
  truthyStr c.name &&
  truthyNum c.latitude &&
  truthyNum c.longitude &&
  jsNotNaN c.latitude &&
  jsNotNaN c.longitude &&
  jsGe c.latitude (-90) &&
  jsLe c.latitude 90 &&
  jsGe c.longitude (-180) &&
  jsLe c.longitude 180

/-- Raw `.street-parking-info` sub-block of a garage element
(`server.js` lines 153-158): `parseInt` results and the raw fee text. -/
structure SPRaw where
  total : Option Int
  available : Option Int
  fee : String
deriving DecidableEq

/-- Raw field values of one `.carpark-item` element (`server.js` lines
139-166): selector texts (to be trimmed), `parseInt`/`parseFloat` results
(`none` = `NaN`), and the optional street-parking sub-block. -/
structure GarageRaw where
  name : String
  address : String
  capacity : Option Int
  lat : Option Rat
  lng : Option Rat
  street : Option SPRaw
  openingHours : String
  contact : String
  facilities : List String
deriving DecidableEq

/-- Building the `carparkData` object from one garage element
(`server.js` lines 139-184). -/
def garageToCarpark (g : GarageRaw) : Carpark :=
  let sp : StreetParking :=
    match g.street with
    | some s => { total := jsOrInt s.total 0, available := jsOrInt s.available 0, fee := jsTrim s.fee }
    | none => { total := 0, available := 0, fee := "" }
  { name := jsTrim g.name
    address := jsTrim g.address
    capacity := jsOrInt g.capacity 0
    latitude := g.lat
    longitude := g.lng
    chargingStations := 0
    chargingProvider := ""
    chargingType := ""
    isStreetParking := false
    streetParking := sp
    openingHours := jsOrStr (jsTrim g.openingHours) "24小時"
    contactNumber := jsOrStr (jsTrim g.contact) "未提供"
    facilities := g.facilities.map jsTrim
    hasCharging := false
    displayInfo := "" }

/-- Raw field values of one `.street-parking-zone` element
(`server.js` lines 198-203). -/
structure ZoneRaw where
  zoneName : String
  zoneAddress : String
  totalSpaces : Option Int
  lat : Option Rat
  lng : Option Rat
  fee : String
deriving DecidableEq

/-- Building the facility object pushed for one street-parking zone
(`server.js` lines 205-221).  The object literal carries no `openingHours`,
`contactNumber` or `facilities` fields (undefined, falsy). -/
def zoneToCarpark (z : ZoneRaw) : Carpark :=
  let total := jsOrInt z.totalSpaces 0
  { name := "路旁泊車區 - " ++ jsTrim z.zoneName
    address := jsTrim z.zoneAddress
    capacity := total
    latitude := z.lat
    longitude := z.lng
    chargingStations := 0
    chargingProvider := ""
    chargingType := ""
    isStreetParking := true
    streetParking := { total := total, available := total, fee := jsTrim z.fee }
    openingHours := ""
    contactNumber := ""
    facilities := []
    hasCharging := false
    displayInfo := "" }

/-- The two distinct log calls made inside the garage extraction loop
(`server.js` lines 189 and 192). -/
inductive LogEvent where
  | parseError
  | invalidData
deriving DecidableEq

/-- The `$('.carpark-item').each` loop (`server.js` lines 137-194).  The whole
body is wrapped in `try`: a record whose extraction throws is skipped and an
error is logged; a record failing `validateCarpark` is skipped with a warning
log; valid records are pushed in document order. -/
def extractGarages : List (Except Unit GarageRaw) → List Carpark × List LogEvent
  | [] => ([], [])
  | Except.error _ :: rest =>
    let r := extractGarages rest
    (r.1, LogEvent.parseError :: r.2)
  | Except.ok g :: rest =>
    let c := garageToCarpark g
    let r := extractGarages rest
    if validateCarpark c then (c :: r.1, r.2) else (r.1, LogEvent.invalidData :: r.2)

/-- The `$('.street-parking-zone').each` loop (`server.js` lines 197-222).
This loop has no per-record `try`: an element whose extraction throws
propagates out of the loop, aborting the whole pipeline run (the exception is
only caught by the function-level handler at line 278). -/
def extractZones : List (Except Unit ZoneRaw) → Except Unit (List Carpark)
  | [] => Except.ok []
  | Except.error e :: _ => Except.error e
  | Except.ok z :: rest => (extractZones rest).map (fun cs => zoneToCarpark z :: cs)

/-- Raw field values of one `.charger-location` element
(`server.js` lines 228-231): location text, provider texts, type texts, and
the `parseInt` result of the count text. -/
structure ChargerElem where
  location : String
  providers : List String
  types : List String
  count : Option Int
deriving DecidableEq

/-- The value stored in `chargerMap` for one location
(`server.js` lines 233-237). -/
structure ChargerInfo where
  count : Int
  providers : String
  types : String
deriving DecidableEq

/-- The object built for one `.charger-location` element (`server.js` lines
228-237): count via `parseInt(..) || 0`, providers and types joined with
`', '` exactly as extracted (no dedup). -/
def chargerInfoOf (e : ChargerElem) : ChargerInfo :=
  { count := jsOrInt e.count 0
    providers := String.intercalate ", " (e.providers.map jsTrim)
    types := String.intercalate ", " (e.types.map jsTrim) }

/-- `Map.prototype.set`: overwrite the value in place if the key is present
(insertion order retained), else append. -/
def mapSet : List (String × ChargerInfo) → String → ChargerInfo → List (String × ChargerInfo)
  | [], k, v => [(k, v)]
  | (k', v') :: rest, k, v =>
    if k' = k then (k, v) :: rest else (k', v') :: mapSet rest k v

/-- `Map.prototype.get`: the value of the entry with the exactly equal key. -/
def mapGet (m : List (String × ChargerInfo)) (k : String) : Option ChargerInfo :=
  (m.find? (fun p => p.1 == k)).map (fun p => p.2)

/-- One iteration of the `$('.charger-location').each` loop
(`server.js` lines 227-238).  The body performs no logging; the log component
is threaded through unchanged. -/
def chargerStep (acc : List (String × ChargerInfo) × List LogEvent) (e : ChargerElem) :
    List (String × ChargerInfo) × List LogEvent :=
  (mapSet acc.1 (jsTrim e.location) (chargerInfoOf e), acc.2)

/-- Building `chargerMap` (`server.js` lines 225-238), together with the log
events emitted by the loop (there are none in the source). -/
def buildChargerMap (es : List ChargerElem) : List (String × ChargerInfo) × List LogEvent :=
  es.foldl chargerStep ([], [])

/-- `formatDisplayInfo` (`server.js` lines 290-317), transcribing the
sequential conditional pushes into the `info` array. -/
def formatDisplayInfo (c : Carpark) : String :=
  let info1 : List String :=
    if c.isStreetParking then
      let a := ["路邊泊車位: " ++ toString c.capacity ++ "個"]
      if c.streetParking.fee ≠ "" then a ++ ["收費: " ++ c.streetParking.fee] else a
    else
      let a := ["停車場車位: " ++ toString c.capacity ++ "個"]
      if c.streetParking.total > 0 then
        let b := a ++ ["路邊泊車位: " ++ toString c.streetParking.total ++ "個"]
        if c.streetParking.fee ≠ "" then b ++ ["路邊收費: " ++ c.streetParking.fee] else b
      else a
  let info2 :=
    if c.hasCharging then info1 ++ ["充電站: " ++ toString c.chargingStations ++ "個"] else info1
  let info3 :=
    if c.openingHours ≠ "" then info2 ++ ["營業時間: " ++ c.openingHours] else info2
  String.intercalate " | " info3

/-- The body of the merge `forEach` for one facility (`server.js` lines
241-258): look up `chargerMap.get(carpark.name)`, copy the charging fields on
a match, set `hasCharging` accordingly, then derive `displayInfo`. -/
def mergeCarpark (m : List (String × ChargerInfo)) (c : Carpark) : Carpark :=
  let c2 :=
    match mapGet m c.name with
    | some info =>
      { c with chargingStations := info.count
               chargingProvider := info.providers
               chargingType := info.types
               hasCharging := true }
    | none => { c with hasCharging := false }
  { c2 with displayInfo := formatDisplayInfo c2 }

/-- The final `.sort((a, b) => a.name.localeCompare(b.name, 'zh-Hant'))`
(`server.js` line 263), with the opaque locale comparator as parameter. -/
def sortCarparks (le : String → String → Bool) (l : List Carpark) : List Carpark :=
  l.mergeSort (fun a b => le a.name b.name)

/-- Outcome of one `axios.get` attempt inside `scrapeWithRetry`: a document,
or an error whose `response.status` is `s` (`none` models an error carrying no
response object, e.g. a network failure). -/
inductive AttemptOutcome (α : Type) where
  | ok (doc : α)
  | err (status : Option Nat)

/-- Result of `scrapeWithRetry`: a document, a permanent bail (404), or a
transient failure surfaced after all attempts were used; failures carry the
last error's status. -/
inductive FetchResult (α : Type) where
  | success (doc : α)
  | permanent (status : Option Nat)
  | transient (status : Option Nat)
deriving DecidableEq

/-- Whether a fetch resolved with a document. -/
def FetchResult.isSuccess : FetchResult α → Bool
  | FetchResult.success _ => true
  | _ => false

/-- The backoff delays of the `async-retry`/`node-retry` configuration
`{retries, minTimeout, maxTimeout, factor}` with randomization off:
delay before retry `i+1` is `min (minTimeout * factor ^ i) maxTimeout`. -/
def retryTimeouts (retries minTimeout maxTimeout factor : Nat) : List Nat :=
  (List.range retries).map (fun i => min (minTimeout * factor ^ i) maxTimeout)

/-- The retry loop of `scrapeWithRetry` (`server.js` lines 87-109) over a
given oracle of per-attempt outcomes: success returns at once; a 404 response
calls `bail` and stops; any other error retries while backoff delays remain.
Returns the result, the number of attempts used, and the delays waited. -/
def retryRun (outcomes : Nat → AttemptOutcome α) :
    List Nat → Nat → FetchResult α × Nat × List Nat
  | ts, attempt =>
    match outcomes attempt with
    | AttemptOutcome.ok d => (FetchResult.success d, attempt + 1, [])
    | AttemptOutcome.err s =>
      if s = some 404 then (FetchResult.permanent s, attempt + 1, [])
      else
        match ts with
        | [] => (FetchResult.transient s, attempt + 1, [])
        | t :: rest =>
          let r := retryRun outcomes rest (attempt + 1)
          (r.1, r.2.1, t :: r.2.2)

/-- `scrapeWithRetry` (`server.js` lines 78-110): `retries = 3`,
`minTimeout = 2000`, `maxTimeout = 5000`, default `factor = 2`. -/
def scrapeWithRetry (outcomes : Nat → AttemptOutcome α) : FetchResult α × Nat × List Nat :=
  retryRun outcomes (retryTimeouts 3 2000 5000 2) 0

/-- A cached snapshot document (`CarparkModel`, `server.js` lines 19-23):
the stored records and the capture timestamp in ms. -/
structure Snapshot where
  data : List Carpark
  lastUpdated : Nat
deriving DecidableEq

/-- A fetched parking-listing document, as the element lists the cheerio
selectors yield: `.carpark-item` elements and `.street-parking-zone`
elements, each possibly throwing on extraction. -/
abbrev DocA := List (Except Unit GarageRaw) × List (Except Unit ZoneRaw)

/-- A fetched charger-listing document: its `.charger-location` elements. -/
abbrev DocB := List ChargerElem

/-- Pipeline-level failures that reach the `catch` of `scrapeCarparks`. -/
inductive PipelineError where
  | fetchFailed
  | parseAbort
  | aggregateEmpty
deriving DecidableEq

/-- The freshness test of the cache check (`server.js` line 116):
`Date.now() - cachedData.lastUpdated < 3600000`. -/
def isFresh (now captured : Nat) : Bool :=
  now - captured < 3600000

/-- The cleaned, sorted batch (`server.js` lines 261-263): merge the charger
map onto all facilities, filter by `validateCarpark`, sort by name. -/
def validatedBatch (le : String → String → Bool) (garages zones : List Carpark)
    (docB : DocB) : List Carpark :=
  sortCarparks le
    (((garages ++ zones).map (mergeCarpark (buildChargerMap docB).1)).filter validateCarpark)

/-- The parse/merge/validate stages of `scrapeCarparks` (`server.js` lines
131-268) given both fetched documents: a throw in the street-zone loop aborts
the run; an empty validated batch raises (`server.js` lines 266-268). -/
def runPipeline (le : String → String → Bool) (docA : DocA) (docB : DocB) :
    Except PipelineError (List Carpark) :=
  match extractZones docA.2 with
  | Except.error _ => Except.error PipelineError.parseAbort
  | Except.ok zones =>
    let valid := validatedBatch le (extractGarages docA.1).1 zones docB
    if valid.isEmpty then Except.error PipelineError.aggregateEmpty else Except.ok valid

/-- The inputs of one `scrapeCarparks` invocation: the most recently stored
snapshot (the `findOne().sort({lastUpdated : -1})` result), the current
clock, the per-attempt fetch outcomes of both sources, and the locale
comparator. -/
structure Env where
  cache : Option Snapshot
  now : Nat
  outA : Nat → AttemptOutcome DocA
  outB : Nat → AttemptOutcome DocB
  le : String → String → Bool

/-- Observable outcome of one `scrapeCarparks` invocation: the returned (or
thrown) value, the most recent snapshot after the call, and whether the
source fetches (and hence all downstream pipeline stages) were started. -/
structure RunResult where
  result : Except PipelineError (List Carpark)
  newCache : Option Snapshot
  fetched : Bool

/-- The `catch` of `scrapeCarparks` (`server.js` lines 278-286): re-read the
most recent snapshot; return its records if one exists, else rethrow. -/
def fallbackResult (env : Env) (e : PipelineError) : RunResult :=
  match env.cache with
  | some s => ⟨Except.ok s.data, env.cache, true⟩
  | none => ⟨Except.error e, env.cache, true⟩

/-- The non-cached path of `scrapeCarparks` (`server.js` lines 126-286):
both fetches run (`Promise.all`), the pipeline runs on success of both, and
any failure falls to the `catch`. On success a new snapshot is stored
(`server.js` lines 271-275). -/
def runFull (env : Env) : RunResult :=
  match (scrapeWithRetry env.outA).1, (scrapeWithRetry env.outB).1 with
  | FetchResult.success docA, FetchResult.success docB =>
    (match runPipeline env.le docA docB with
     | Except.ok valid => ⟨Except.ok valid, some ⟨valid, env.now⟩, true⟩
     | Except.error e => fallbackResult env e)
  | FetchResult.success _, _ => fallbackResult env PipelineError.fetchFailed
  | _, _ => fallbackResult env PipelineError.fetchFailed

/-- `scrapeCarparks` (`server.js` lines 112-287): serve the cached snapshot
when it is fresh, otherwise run the full pipeline. -/
def scrapeCarparks (env : Env) : RunResult :=
  match env.cache with
  | some s =>
    if isFresh env.now s.lastUpdated then ⟨Except.ok s.data, env.cache, false⟩ else runFull env
  | none => runFull env

/-- Modelled from the spec wording of §4.4 / C3, for comparison with the
source's `validateCarpark`: `name` non-empty, coordinates numeric (non-`NaN`)
and inside `[-90, 90]` resp. `[-180, 180]`. -/
def specValidFacility (c : Carpark) : Bool :=
  (decide (c.name ≠ "")) &&
  (match c.latitude with
   | none => false
   | some x => decide (-90 ≤ x ∧ x ≤ 90)) &&
  (match c.longitude with
   | none => false
   | some x => decide (-180 ≤ x ∧ x ≤ 180)) 

/-- The ordered parts of `displayInfo` as the claim describes them: the
street/garage group, then the charging part, then the opening-hours part,
concatenated in this fixed order. -/
def displayParts (c : Carpark) : List String :=
  (if c.isStreetParking then
    ["路邊泊車位: " ++ toString c.capacity ++ "個"] ++
      (if c.streetParking.fee ≠ "" then ["收費: " ++ c.streetParking.fee] else [])
   else
    ["停車場車位: " ++ toString c.capacity ++ "個"] ++
      (if c.streetParking.total > 0 then
        ["路邊泊車位: " ++ toString c.streetParking.total ++ "個"] ++
          (if c.streetParking.fee ≠ "" then ["路邊收費: " ++ c.streetParking.fee] else [])
       else [])) ++
  (if c.hasCharging then ["充電站: " ++ toString c.chargingStations ++ "個"] else []) ++
  (if c.openingHours ≠ "" then ["營業時間: " ++ c.openingHours] else [])

/-- A run whose fetches both succeed but whose validated batch is empty
(`validCarparks.length === 0`, `server.js` line 266). -/
def emptyBatchRun (env : Env) : Prop :=
  ∃ docA docB zones, (scrapeWithRetry env.outA).1 = FetchResult.success docA ∧
    (scrapeWithRetry env.outB).1 = FetchResult.success docB ∧
    extractZones docA.2 = Except.ok zones ∧
    validatedBatch env.le (extractGarages docA.1).1 zones docB = []

/-- Concrete facility with latitude exactly 0: in range per the spec rules,
but falsy in JS. -/
def cexZeroLat : Carpark :=
  ⟨"A", "", 1, some 0, some 100, 0, "", "", false, ⟨0, 0, ""⟩, "24小時", "", [], false, ""⟩

/-- Concrete raw street-zone element. -/
def zoneRawW : ZoneRaw := ⟨"測試區", "addr", some 20, some 22, some 114, "$2"⟩

/-- Concrete charger element whose provider text appears twice. -/
def chargerDupW : ChargerElem := ⟨"Loc", ["A", "A"], ["T"], some 2⟩

/-- Concrete facility whose name matches `chargerDupW`'s location. -/
def facLocW : Carpark :=
  ⟨"Loc", "", 3, some 22, some 114, 0, "", "", false, ⟨0, 0, ""⟩, "24小時", "", [], false, ""⟩

/-- Concrete stored snapshot. -/
def snapW : Snapshot := ⟨[facLocW], 0⟩

/-- Environment with a 59-minute-old snapshot (fresh). -/
def envFreshW : Env :=
  ⟨some snapW, 59 * 60000, fun _ => AttemptOutcome.err none, fun _ => AttemptOutcome.err none,
   fun _ _ => true⟩

/-- Environment with a 2-hour-old snapshot and failing fetches. -/
def envFailSomeW : Env :=
  ⟨some snapW, 2 * 3600000, fun _ => AttemptOutcome.err none, fun _ => AttemptOutcome.err none,
   fun _ _ => true⟩

/-- Environment with no snapshot and failing fetches. -/
def envFailNoneW : Env :=
  ⟨none, 0, fun _ => AttemptOutcome.err none, fun _ => AttemptOutcome.err none, fun _ _ => true⟩

/-- Attempt oracle that always yields a 404 response. -/
def out404W : Nat → AttemptOutcome Unit := fun _ => AttemptOutcome.err (some 404)

/-- Attempt oracle that always yields a 500 response. -/
def out500W : Nat → AttemptOutcome Unit := fun _ => AttemptOutcome.err (some 500)

/-- Concrete charger map with a single entry. -/
def m5W : List (String × ChargerInfo) := [("LocA", ⟨2, "P", "T"⟩)]

/-- Concrete facility whose name matches the `m5W` key. -/
def fac5W : Carpark :=
  ⟨"LocA", "", 3, some 22, some 114, 0, "", "", false, ⟨0, 0, ""⟩, "24小時", "", [], false, ""⟩

/-- Concrete raw garage element that validates. -/
def garageRawW : GarageRaw := ⟨"G", "addr", some 50, some 22, some 114, none, "", "", []⟩

/-- Parking-listing document containing only `garageRawW`. -/
def docAW : DocA := ([Except.ok garageRawW], [])

/-- A concrete (trivial) locale comparator. -/
def leW : String → String → Bool := fun _ _ => true

/-- The merged facility the pipeline produces from `docAW` with no chargers. -/
def mergedW : Carpark := mergeCarpark (buildChargerMap []).1 (garageToCarpark garageRawW)

/-- `validateCarpark` agrees with the spec-side predicate except that the JS
truthiness tests additionally reject zero coordinates. -/
theorem validateCarpark_iff (c : Carpark) :
    validateCarpark c = true ↔
      (specValidFacility c = true ∧ c.latitude ≠ some 0 ∧ c.longitude ≠ some 0) := by
  obtain ⟨name, addr, cap, la, lo, cs, cp, ct, isp, sp, oh, cn, fac, hc, di⟩ := c
  cases la <;> cases lo <;>
    simp [validateCarpark, specValidFacility, truthyStr, truthyNum, jsNotNaN, jsGe, jsLe] <;>
    tauto

/-- Lookup in the empty map. -/
theorem mapGet_nil (n : String) : mapGet [] n = none := rfl

/-- Lookup past a head entry. -/
theorem mapGet_cons (a : String) (b : ChargerInfo) (rest : List (String × ChargerInfo))
    (n : String) : mapGet ((a, b) :: rest) n = if a = n then some b else mapGet rest n := by
  by_cases h : a = n
  · rw [if_pos h]
    unfold mapGet
    rw [List.find?_cons_of_pos _ (by simpa using h)]
    rfl
  · rw [if_neg h]
    unfold mapGet
    rw [List.find?_cons_of_neg _ (by simpa using h)]

/-- `Map.set` then `Map.get`: the written key reads back the new value and
every other key is unaffected. -/
theorem mapGet_mapSet (m : List (String × ChargerInfo)) (k : String) (v : ChargerInfo)
    (n : String) : mapGet (mapSet m k v) n = if n = k then some v else mapGet m n := by
  induction m with
  | nil =>
    show mapGet [(k, v)] n = _
    rw [mapGet_cons]
    by_cases h : n = k
    · simp [h]
    · have h2 : ¬ k = n := fun e => h (Eq.symm e)
      rw [if_neg h, if_neg h2]
  | cons p rest ih =>
    obtain ⟨a, b⟩ := p
    by_cases hak : a = k
    · subst hak
      show mapGet ((if a = a then (a, v) :: rest else (a, b) :: mapSet rest a v)) n = _
      rw [if_pos rfl, mapGet_cons, mapGet_cons]
      by_cases h : n = a
      · simp [h]
      · have h2 : ¬ a = n := fun e => h (Eq.symm e)
        rw [if_neg h, if_neg h2, if_neg h2]
    · show mapGet ((if a = k then (k, v) :: rest else (a, b) :: mapSet rest k v)) n = _
      rw [if_neg hak, mapGet_cons, mapGet_cons, ih]
      by_cases han : a = n
      · have hnk : ¬ n = k := fun e => hak (han.trans e)
        simp [han, hnk]
      · simp [han]

/-- The charger loop emits no log events. -/
theorem chargerFold_snd (es : List ChargerElem)
    (acc : List (String × ChargerInfo) × List LogEvent) :
    (es.foldl chargerStep acc).2 = acc.2 := by
  induction es generalizing acc with
  | nil => rfl
  | cons e rest ih =>
    rw [List.foldl_cons, ih]
    rfl

/-- Lookup after folding the charger loop: the last matching element wins,
with the initial map as fallback. -/
theorem chargerFold_get (es : List ChargerElem)
    (acc : List (String × ChargerInfo) × List LogEvent) (n : String) :
    mapGet (es.foldl chargerStep acc).1 n =
      ((es.reverse.find? (fun e => jsTrim e.location == n)).map chargerInfoOf).or
        (mapGet acc.1 n) := by
  induction es generalizing acc with
  | nil => simp
  | cons e rest ih =>
    rw [List.foldl_cons, ih, List.reverse_cons, List.find?_append]
    cases hf : rest.reverse.find? (fun x => jsTrim x.location == n) with
    | some e2 => simp
    | none =>
      simp only [hf, Option.map, Option.none_or]
      show mapGet (mapSet acc.1 (jsTrim e.location) (chargerInfoOf e)) n = _
      rw [mapGet_mapSet]
      by_cases h : n = jsTrim e.location
      · rw [if_pos h]
        have hpe : (jsTrim e.location == n) = true := by simpa using h.symm
        simp [List.find?_cons, hpe, Option.or]
      · rw [if_neg h]
        have hpe : (jsTrim e.location == n) = false := by
          simpa using fun e2 => h (Eq.symm e2)
        simp [List.find?_cons, hpe, Option.or]

/-- `chargerMap.get` is determined by the last charger element whose trimmed
location equals the key. -/
theorem buildChargerMap_get (es : List ChargerElem) (n : String) :
    mapGet (buildChargerMap es).1 n =
      (es.reverse.find? (fun e => jsTrim e.location == n)).map chargerInfoOf := by
  rw [buildChargerMap, chargerFold_get, mapGet_nil, Option.or_none]

/-- Building the charger map logs nothing. -/
theorem buildChargerMap_logs (es : List ChargerElem) : (buildChargerMap es).2 = [] :=
  chargerFold_snd es ([], [])

/-- Every charger-map entry comes from a source element with that trimmed
location name. -/
theorem buildChargerMap_entry (es : List ChargerElem) (n : String) (info : ChargerInfo)
    (h : mapGet (buildChargerMap es).1 n = some info) :
    ∃ e, e ∈ es ∧ jsTrim e.location = n ∧ info = chargerInfoOf e := by
  rw [buildChargerMap_get] at h
  cases hf : es.reverse.find? (fun e => jsTrim e.location == n) with
  | none =>
    rw [hf] at h
    exact absurd h (by simp)
  | some e =>
    rw [hf] at h
    refine ⟨e, ?_, ?_, ?_⟩
    · exact List.mem_reverse.mp (List.mem_of_find?_eq_some hf)
    · simpa using List.find?_some hf
    · simpa using h.symm

/-- The garage loop distributes over list concatenation: records and logs of
independent sublists are independent. -/
theorem extractGarages_append (xs ys : List (Except Unit GarageRaw)) :
    extractGarages (xs ++ ys) =
      ((extractGarages xs).1 ++ (extractGarages ys).1,
       (extractGarages xs).2 ++ (extractGarages ys).2) := by
  induction xs with
  | nil => simp [extractGarages]
  | cons x rest ih =>
    cases x with
    | error e => simp [extractGarages, ih]
    | ok g =>
      by_cases hv : validateCarpark (garageToCarpark g) = true <;>
        simp [extractGarages, ih, hv]

/-- A throwing street-zone element aborts the whole zone extraction. -/
theorem extractZones_abort (zs : List (Except Unit ZoneRaw))
    (h : Except.error () ∈ zs) : extractZones zs = Except.error () := by
  induction zs with
  | nil => cases h
  | cons z rest ih =>
    cases z with
    | error e => rfl
    | ok z0 =>
      have hr : Except.error () ∈ rest := by
        rcases List.mem_cons.mp h with h1 | h1
        · cases h1
        · exact h1
      show (extractZones rest).map _ = _
      rw [ih hr]
      rfl

/-- Zone extraction without failures materializes every element in order. -/
theorem extractZones_map_ok (zs : List ZoneRaw) :
    extractZones (zs.map Except.ok) = Except.ok (zs.map zoneToCarpark) := by
  induction zs with
  | nil => rfl
  | cons z rest ih =>
    show (extractZones (rest.map Except.ok)).map _ = _
    rw [ih]
    rfl

/-- Members of the validated batch pass `validateCarpark`. -/
theorem mem_validatedBatch (le : String → String → Bool) (garages zones : List Carpark)
    (docB : DocB) (c : Carpark) (h : c ∈ validatedBatch le garages zones docB) :
    validateCarpark c = true := by
  unfold validatedBatch sortCarparks at h
  rw [List.mem_mergeSort] at h
  exact (List.mem_filter.mp h).2

/-- Members of a successful pipeline result pass `validateCarpark`. -/
theorem runPipeline_ok_mem (le : String → String → Bool) (docA : DocA) (docB : DocB)
    (cs : List Carpark) (h : runPipeline le docA docB = Except.ok cs)
    (c : Carpark) (hc : c ∈ cs) : validateCarpark c = true := by
  unfold runPipeline at h
  cases hz : extractZones docA.2 with
  | error e =>
    rw [hz] at h
    cases h
  | ok zones =>
    rw [hz] at h
    by_cases he : (validatedBatch le (extractGarages docA.1).1 zones docB).isEmpty
    · simp [he] at h
    · simp [he] at h
      subst h
      exact mem_validatedBatch le _ zones docB c hc

/-- An empty validated batch makes the pipeline raise. -/
theorem runPipeline_empty (le : String → String → Bool) (docA : DocA) (docB : DocB)
    (zones : List Carpark) (hz : extractZones docA.2 = Except.ok zones)
    (hv : validatedBatch le (extractGarages docA.1).1 zones docB = []) :
    runPipeline le docA docB = Except.error PipelineError.aggregateEmpty := by
  unfold runPipeline
  rw [hz]
  show (if (validatedBatch le (extractGarages docA.1).1 zones docB).isEmpty = true
    then Except.error PipelineError.aggregateEmpty
    else Except.ok (validatedBatch le (extractGarages docA.1).1 zones docB)) = _
  rw [hv]
  rfl

/-- Any failing run takes the `catch` path. -/
theorem runFull_fallback (env : Env)
    (hfail : (scrapeWithRetry env.outA).1.isSuccess = false ∨
             (scrapeWithRetry env.outB).1.isSuccess = false ∨ emptyBatchRun env) :
    ∃ e, runFull env = fallbackResult env e := by
  cases ha : (scrapeWithRetry env.outA).1 <;> cases hb : (scrapeWithRetry env.outB).1 <;>
    simp only [runFull, ha, hb] <;> try exact ⟨_, rfl⟩
  case success.success docA docB =>
    rcases hfail with h | h | h
    · rw [ha] at h
      cases h
    · rw [hb] at h
      cases h
    · obtain ⟨dA, dB, zones, hA, hB, hz, hv⟩ := h
      rw [ha] at hA
      rw [hb] at hB
      cases hA
      cases hB
      rw [runPipeline_empty env.le docA docB zones hz hv]
      exact ⟨_, rfl⟩

/-- `formatDisplayInfo` builds exactly the ordered parts list. -/
theorem formatDisplayInfo_eq_parts (c : Carpark) :
    formatDisplayInfo c = String.intercalate " | " (displayParts c) := by
  unfold formatDisplayInfo displayParts
  cases hsp : c.isStreetParking <;> split_ifs <;> simp

/-- C1: if a pipeline run fails as a whole (a fetch does not succeed, or the
validated batch is empty), `scrapeCarparks` returns the records of the most
recently stored snapshot unchanged whenever a prior snapshot exists,
regardless of its age; with no prior snapshot the failure propagates. -/
theorem scrapeCarparks_fallback_on_failure (env : Env)
    (hfail : (scrapeWithRetry env.outA).1.isSuccess = false ∨
             (scrapeWithRetry env.outB).1.isSuccess = false ∨ emptyBatchRun env) :
    (∀ s, env.cache = some s → (scrapeCarparks env).result = Except.ok s.data) ∧
    (env.cache = none → ∃ e, (scrapeCarparks env).result = Except.error e) := by
  obtain ⟨e, he⟩ := runFull_fallback env hfail
  constructor
  · intro s hs
    unfold scrapeCarparks
    rw [hs]
    by_cases hf : isFresh env.now s.lastUpdated
    · simp [hf]
    · simp [hf, he, fallbackResult, hs]
  · intro hn
    unfold scrapeCarparks
    rw [hn]
    show ∃ e2, (runFull env).result = Except.error e2
    rw [he]
    unfold fallbackResult
    rw [hn]
    exact ⟨e, rfl⟩

/-- C1 witness: with failing fetches, a 2-hour-old snapshot is served
unchanged, and with no snapshot the error propagates. -/
theorem scrapeCarparks_fallback_on_failure_witness :
    (scrapeCarparks envFailSomeW).result = Except.ok snapW.data ∧
    (∃ e, (scrapeCarparks envFailNoneW).result = Except.error e) :=
  ⟨(scrapeCarparks_fallback_on_failure envFailSomeW (Or.inl rfl)).1 snapW rfl,
   (scrapeCarparks_fallback_on_failure envFailNoneW (Or.inl rfl)).2 rfl⟩

/-- C2: a fresh snapshot (younger than 3,600,000 ms) is returned as is,
without fetching (hence without parsing, merging or validating) and without
writing a new snapshot; a snapshot is fresh at 59 minutes of age and no
longer fresh at 61 minutes. -/
theorem scrapeCarparks_fresh_cache_skip (env : Env) (s : Snapshot) (t0 : Nat)
    (h : env.cache = some s) :
    (isFresh env.now s.lastUpdated = true →
      scrapeCarparks env = ⟨Except.ok s.data, env.cache, false⟩) ∧
    isFresh (t0 + 59 * 60000) t0 = true ∧
    isFresh (t0 + 61 * 60000) t0 = false := by
  refine ⟨?_, by simp [isFresh], by simp [isFresh]⟩
  intro hf
  simp [scrapeCarparks, h, hf]

/-- C2 witness: a snapshot captured at 0 is served from cache at 59 minutes,
with no fetch and no write. -/
theorem scrapeCarparks_fresh_cache_skip_witness :
    scrapeCarparks envFreshW = ⟨Except.ok snapW.data, envFreshW.cache, false⟩ ∧
    isFresh (0 + 59 * 60000) 0 = true ∧ isFresh (0 + 61 * 60000) 0 = false := by
  obtain ⟨h1, h2, h3⟩ := scrapeCarparks_fresh_cache_skip envFreshW snapW 0 rfl
  exact ⟨h1 (by decide), h2, h3⟩

/-- C3 counterexample: a facility at latitude 0 satisfies the spec's
validation rules (name non-empty, coordinates numeric and in range) yet
`validateCarpark` returns false, because the JS truthiness test
`carpark.latitude &&` rejects the number 0. -/
theorem validateCarpark_rejects_zero_coordinate :
    specValidFacility cexZeroLat = true ∧ validateCarpark cexZeroLat = false := by
  decide

/-- C3 amended: `validateCarpark` returns true iff the record satisfies the
spec rules and additionally has nonzero latitude and longitude; every
facility failing `validateCarpark` is absent from the validated batch of a
successful pipeline run. -/
theorem validateCarpark_characterization :
    (∀ c : Carpark, validateCarpark c = true ↔
      (specValidFacility c = true ∧ c.latitude ≠ some 0 ∧ c.longitude ≠ some 0)) ∧
    (∀ (le : String → String → Bool) (docA : DocA) (docB : DocB) (cs : List Carpark),
      runPipeline le docA docB = Except.ok cs → ∀ c ∈ cs, validateCarpark c = true) :=
  ⟨validateCarpark_iff,
   fun le docA docB cs h c hc => runPipeline_ok_mem le docA docB cs h c hc⟩

/-- C3 witness: a concrete successful pipeline run whose returned facility
passes `validateCarpark`. -/
theorem validateCarpark_characterization_witness : validateCarpark mergedW = true := by
  have hr : runPipeline leW docAW [] = Except.ok [mergedW] := by
    have hg : (extractGarages docAW.1).1 = [garageToCarpark garageRawW] := by decide
    have hv : validateCarpark mergedW = true := by decide
    simp only [runPipeline, extractZones, validatedBatch, sortCarparks, hg, List.append_nil,
      List.map_cons, List.map_nil]
    rw [show mergeCarpark (buildChargerMap []).1 (garageToCarpark garageRawW) = mergedW from rfl]
    rw [List.filter_cons_of_pos hv, List.filter_nil, List.mergeSort_singleton]
    rfl
  exact validateCarpark_characterization.2 leW docAW [] [mergedW] hr mergedW (by simp)

/-- C4: a 404 response bails permanently on the spot with no further
attempts; any other error is retried with retries = 3 (4 attempts in all),
after which the transient error is surfaced, and the inter-attempt backoff
delays are 2000, 4000, 5000 ms, each within [2000, 5000]. -/
theorem scrapeWithRetry_retry_policy {α : Type} (outcomes : Nat → AttemptOutcome α) :
    (outcomes 0 = AttemptOutcome.err (some 404) →
      scrapeWithRetry outcomes = (FetchResult.permanent (some 404), 1, [])) ∧
    (∀ sts : Nat → Option Nat,
      (∀ i, i ≤ 3 → outcomes i = AttemptOutcome.err (sts i) ∧ sts i ≠ some 404) →
      scrapeWithRetry outcomes = (FetchResult.transient (sts 3), 4, [2000, 4000, 5000])) ∧
    retryTimeouts 3 2000 5000 2 = [2000, 4000, 5000] ∧
    (∀ d ∈ retryTimeouts 3 2000 5000 2, 2000 ≤ d ∧ d ≤ 5000) := by
  refine ⟨?_, ?_, by decide, by decide⟩
  · intro h
    show retryRun outcomes (retryTimeouts 3 2000 5000 2) 0 = _
    rw [show retryTimeouts 3 2000 5000 2 = [2000, 4000, 5000] from by decide]
    simp [retryRun, h]
  · intro sts h
    obtain ⟨h0, n0⟩ := h 0 (by omega)
    obtain ⟨h1, n1⟩ := h 1 (by omega)
    obtain ⟨h2, n2⟩ := h 2 (by omega)
    obtain ⟨h3, n3⟩ := h 3 (by omega)
    show retryRun outcomes (retryTimeouts 3 2000 5000 2) 0 = _
    rw [show retryTimeouts 3 2000 5000 2 = [2000, 4000, 5000] from by decide]
    simp [retryRun, h0, h1, h2, h3, n0, n1, n2, n3]

/-- C4 witness: a constant-404 oracle stops after 1 attempt; a constant-500
oracle uses 4 attempts and the delays 2000, 4000, 5000. -/
theorem scrapeWithRetry_retry_policy_witness :
    scrapeWithRetry out404W = (FetchResult.permanent (some 404), 1, []) ∧
    scrapeWithRetry out500W = (FetchResult.transient (some 500), 4, [2000, 4000, 5000]) :=
  ⟨(scrapeWithRetry_retry_policy out404W).1 rfl,
   (scrapeWithRetry_retry_policy out500W).2.1 (fun _ => some 500) (fun _ _ => ⟨rfl, by simp⟩)⟩

/-- C5: the merger looks up the aggregate map by the facility's exact name;
on a match it copies count, joined providers and joined types and sets
`hasCharging`; on no match it sets `hasCharging = false` and leaves the
zero/empty charging fields untouched; map entries always carry the joined
provider/type lists of a source element, so the fields are never partially
populated. -/
theorem mergeCarpark_join_semantics (m : List (String × ChargerInfo)) (c : Carpark)
    (h1 : c.chargingStations = 0) (h2 : c.chargingProvider = "") (h3 : c.chargingType = "") :
    (mergeCarpark m c).hasCharging = (mapGet m c.name).isSome ∧
    (∀ info, mapGet m c.name = some info →
      (mergeCarpark m c).chargingStations = info.count ∧
      (mergeCarpark m c).chargingProvider = info.providers ∧
      (mergeCarpark m c).chargingType = info.types) ∧
    (mapGet m c.name = none →
      (mergeCarpark m c).chargingStations = 0 ∧
      (mergeCarpark m c).chargingProvider = "" ∧
      (mergeCarpark m c).chargingType = "" ∧
      (mergeCarpark m c).hasCharging = false) ∧
    (∀ (es : List ChargerElem) (n : String) (info : ChargerInfo),
      mapGet (buildChargerMap es).1 n = some info →
      ∃ e, e ∈ es ∧ jsTrim e.location = n ∧ info = chargerInfoOf e) := by
  refine ⟨?_, ?_, ?_, buildChargerMap_entry⟩
  · cases hm : mapGet m c.name <;> simp [mergeCarpark, hm]
  · intro info hm
    simp [mergeCarpark, hm]
  · intro hm
    simp [mergeCarpark, hm, h1, h2, h3]

/-- C5 witness: a matched facility receives the aggregate's fields. -/
theorem mergeCarpark_join_semantics_witness :
    (mergeCarpark m5W fac5W).chargingStations = 2 ∧
    (mergeCarpark m5W fac5W).hasCharging = true := by
  have h := mergeCarpark_join_semantics m5W fac5W rfl rfl rfl
  refine ⟨(h.2.1 ⟨2, "P", "T"⟩ rfl).1, ?_⟩
  rw [h.1]
  rfl

/-- C6: the `displayInfo` of every merged facility is the " | "-join of
exactly the ordered conditional parts (street or garage group, then
charging, then opening hours). -/
theorem mergeCarpark_displayInfo_parts (m : List (String × ChargerInfo)) (c : Carpark) :
    (mergeCarpark m c).displayInfo =
      String.intercalate " | " (displayParts (mergeCarpark m c)) ∧
    (∀ c2 : Carpark, formatDisplayInfo c2 = String.intercalate " | " (displayParts c2)) := by
  refine ⟨?_, formatDisplayInfo_eq_parts⟩
  cases hm : mapGet m c.name <;>
    simp only [mergeCarpark, hm] <;>
    rw [formatDisplayInfo_eq_parts] <;>
    congr 1 <;>
    simp [displayParts]

/-- C7: every street-parking-zone element materializes as a facility with
`isStreetParking = true`, the fixed literal marker followed by the zone name,
capacity and street total equal to the parsed total spaces, available equal
to total, and zero/empty charging fields. -/
theorem zone_materialization (zs : List ZoneRaw) (z : ZoneRaw) :
    extractZones (zs.map Except.ok) = Except.ok (zs.map zoneToCarpark) ∧
    (zoneToCarpark z).isStreetParking = true ∧
    (zoneToCarpark z).name = "路旁泊車區 - " ++ jsTrim z.zoneName ∧
    (zoneToCarpark z).capacity = jsOrInt z.totalSpaces 0 ∧
    (zoneToCarpark z).streetParking.total = jsOrInt z.totalSpaces 0 ∧
    (zoneToCarpark z).streetParking.available = (zoneToCarpark z).streetParking.total ∧
    (zoneToCarpark z).chargingStations = 0 ∧
    (zoneToCarpark z).chargingProvider = "" ∧
    (zoneToCarpark z).chargingType = "" :=
  ⟨extractZones_map_ok zs, rfl, rfl, rfl, rfl, rfl, rfl, rfl, rfl⟩

/-- C8 counterexample: a throwing street-zone record aborts extraction
instead of being skipped — with the failing record absent, the sibling
record would materialize, but the actual run returns an error. -/
theorem extractZones_no_isolation_cex :
    extractZones [Except.error (), Except.ok zoneRawW] = Except.error () ∧
    extractZones [Except.ok zoneRawW] = Except.ok [zoneToCarpark zoneRawW] := ⟨rfl, rfl⟩

/-- C8 amended: per-record isolation holds only for garage records (a
throwing garage record is skipped and logged, leaving the other records
exactly as if it were absent); the street-zone loop has no per-record
handler, so a throwing zone record aborts the whole extraction. -/
theorem extraction_isolation_garage_only (xs ys : List (Except Unit GarageRaw))
    (zs : List (Except Unit ZoneRaw)) :
    ((extractGarages (xs ++ Except.error () :: ys)).1 = (extractGarages (xs ++ ys)).1 ∧
     (extractGarages (xs ++ Except.error () :: ys)).2 =
       (extractGarages xs).2 ++ LogEvent.parseError :: (extractGarages ys).2) ∧
    (Except.error () ∈ zs → extractZones zs = Except.error ()) := by
  refine ⟨⟨?_, ?_⟩, extractZones_abort zs⟩
  · rw [extractGarages_append, extractGarages_append]
    rfl
  · rw [extractGarages_append]
    rfl

/-- C8 witness: concrete instances of garage-record skipping and street-zone
abortion. -/
theorem extraction_isolation_garage_only_witness :
    (extractGarages ([] ++ Except.error () :: [])).1 = (extractGarages ([] ++ [])).1 ∧
    extractZones [Except.error (), Except.ok zoneRawW] = Except.error () :=
  ⟨(extraction_isolation_garage_only [] [] [Except.error (), Except.ok zoneRawW]).1.1,
   (extraction_isolation_garage_only [] [] [Except.error (), Except.ok zoneRawW]).2
     (List.Mem.head _)⟩

/-- C9 counterexample: a provider name appearing twice among a charger
element's provider fields appears twice in the merged facility's joined
provider string, where the claim predicts the distinct join. -/
theorem chargingProvider_duplicates_kept_cex :
    (mergeCarpark (buildChargerMap [chargerDupW]).1 facLocW).chargingProvider = "A, A" ∧
    String.intercalate ", " ((chargerDupW.providers.map jsTrim).dedup) = "A" ∧
    ("A, A" : String) ≠ "A" := ⟨by decide, by decide, by decide⟩

/-- C9 amended: for a merged facility with a join match, the provider and
type fields are the comma-joins of the matched element's trimmed provider and
type texts in document order, duplicates included (no dedup is applied). -/
theorem chargingProvider_document_order_join (es : List ChargerElem) (c : Carpark)
    (e : ChargerElem)
    (h : es.reverse.find? (fun x => jsTrim x.location == c.name) = some e) :
    (mergeCarpark (buildChargerMap es).1 c).chargingProvider =
      String.intercalate ", " (e.providers.map jsTrim) ∧
    (mergeCarpark (buildChargerMap es).1 c).chargingType =
      String.intercalate ", " (e.types.map jsTrim) := by
  have hm : mapGet (buildChargerMap es).1 c.name = some (chargerInfoOf e) := by
    rw [buildChargerMap_get, h]
    rfl
  constructor <;> simp [mergeCarpark, hm, chargerInfoOf]

/-- C9 witness: the duplicate-provider element joins to "A, A" on its matched
facility. -/
theorem chargingProvider_document_order_join_witness :
    (mergeCarpark (buildChargerMap [chargerDupW]).1 facLocW).chargingProvider =
      String.intercalate ", " (chargerDupW.providers.map jsTrim) :=
  (chargingProvider_document_order_join [chargerDupW] facLocW chargerDupW rfl).1

/-- C10: the charger map retains, for each key, exactly the data of the last
charger element whose trimmed location equals the key — earlier duplicates
are overwritten — and the loop produces no log event. -/
theorem chargerMap_last_entry_wins (es : List ChargerElem) (n : String) :
    mapGet (buildChargerMap es).1 n =
      (es.reverse.find? (fun e => jsTrim e.location == n)).map chargerInfoOf ∧
    (buildChargerMap es).2 = [] :=
  ⟨buildChargerMap_get es n, buildChargerMap_logs es⟩
